import Mathlib

/-!
Verification of the HR-management backend (Express + MySQL) against its
specification. The embedding models the v11 variant of the server
(`src/server.js`, the variant defining `PUT /api/admin/leaves/:id` at
lines 470-495), whose behavior on the modelled endpoints agrees with the
other variants cited by the claims (`src/unnamed/part_000` lines 308-381,
`src/unnamed/part_001` lines 182-197).

Database rows are Lean structures mirroring the MySQL schema
(`employees`, `leaves`, `loans` tables); `DECIMAL` payroll columns are
modelled as `Int` (the claims only ever assert they are unchanged),
`INT` columns as `Int`, `VARCHAR`/`TEXT` as `String`, timestamps as
`Nat`. SQL statements become list operations: `SELECT ... WHERE id = ?`
is `List.find?`, `UPDATE ... WHERE id = ?` is `List.map` with a guarded
update, `INSERT` is an append with the store-assigned `AUTO_INCREMENT`
id. Email dispatch reads state but never writes it, so it does not
appear in the state transformers.
-/

namespace HR

/-- One row of the `employees` table, from the schema synchronized by the
server (`src/server.js` lines 30-49 and 222-239). -/
structure Employee where
  id : String
  name : String
  email : String
  role : String
  basic_salary : Int
  invigilation : Int
  t_payment : Int
  increment : Int
  extra_leaves_deduction : Int
  tax : Int
  loan_deduction : Int
  insurance : Int
  others_deduction : Int
  leave_annual : Int
  leave_casual : Int
  loan_opening_balance : Int
  eidi : Int
  deriving DecidableEq

/-- One row of the `leaves` table (`src/server.js` lines 270-279):
`status` defaults to the string Pending and `applied_at` defaults to the
current timestamp at insertion. -/
structure LeaveRow where
  id : Nat
  employee_id : String
  leave_type : String
  start_date : String
  days : Int
  reason : String
  status : String
  applied_at : Nat
  deriving DecidableEq

/-- One row of the `loans` table (`src/server.js` lines 260-267). -/
structure LoanRow where
  id : Nat
  employee_id : String
  amount : Int
  reason : String
  status : String
  applied_at : Nat
  deriving DecidableEq

/-- The persistent database state: the three tables the claims touch,
plus the `AUTO_INCREMENT` counter of the `leaves` table. -/
structure DB where
  employees : List Employee
  leaves : List LeaveRow
  loans : List LoanRow
  nextLeaveId : Nat
  deriving DecidableEq

/-- The HTTP responses the modelled endpoints can produce on the modelled
(error-free-store) paths: `ok` is `200 {success:true}`, `notFound` is the
`404` sent by the leave-decision endpoint when the id matches no row. -/
inductive Resp where
  | ok : Resp
  | notFound : Resp
  deriving DecidableEq

/-- `SELECT * FROM leaves WHERE id = ?` (first row). -/
def findLeave (db : DB) (i : Nat) : Option LeaveRow :=
  db.leaves.find? (fun l => l.id == i)

/-- `SELECT * FROM employees WHERE id = ?` (first row). -/
def findEmp (db : DB) (eid : String) : Option Employee :=
  db.employees.find? (fun e => e.id == eid)

/-- Per-row effect of `UPDATE leaves SET status = ? WHERE id = ?`
(`src/server.js` line 476). -/
def setLeaveStatus (i : Nat) (s : String) (l : LeaveRow) : LeaveRow :=
  if l.id == i then { l with status := s } else l

/-- Per-row effect of the balance deduction
`UPDATE employees SET col = col - ? WHERE id = ?` where `col` is
`leave_annual` exactly when the leave row has `leave_type` equal to the
string Annual Leave, and `leave_casual` otherwise
(`src/server.js` lines 481-482). -/
def deductEmp (leave : LeaveRow) (e : Employee) : Employee :=
  if e.id == leave.employee_id then
    if leave.leave_type == "Annual Leave" then
      { e with leave_annual := e.leave_annual - leave.days }
    else
      { e with leave_casual := e.leave_casual - leave.days }
  else e

/-- `PUT /api/admin/leaves/:id` (`src/server.js` lines 470-495): look the
leave up; if absent answer 404; otherwise set its status to the request
body value unconditionally (the code has no check that the current status
is Pending), and, when the new status is the string Approved, subtract
`days` from the selected balance column of the referenced employee. The
trailing email dispatch reads but does not write state. -/
def putAdminLeave (db : DB) (i : Nat) (s : String) : DB × Resp :=
  match findLeave db i with
  | none => (db, Resp.notFound)
  | some leave =>
    let db1 : DB := { db with leaves := db.leaves.map (setLeaveStatus i s) }
    let db2 : DB :=
      if s == "Approved" then
        { db1 with employees := db1.employees.map (deductEmp leave) }
      else db1
    (db2, Resp.ok)

/-- `POST /api/leaves` (`src/server.js` lines 444-453): insert a new row
with status the string Pending; the store assigns the `AUTO_INCREMENT`
id and the schema default sets `applied_at` to the insertion time `now`.
The handler performs no validation of `days` and touches no employee
row. -/
def postLeave (db : DB) (employeeId ty startDate : String) (days : Int)
    (reason : String) (now : Nat) : DB × Resp :=
  let row : LeaveRow :=
    { id := db.nextLeaveId, employee_id := employeeId, leave_type := ty,
      start_date := startDate, days := days, reason := reason,
      status := "Pending", applied_at := now }
  ({ db with leaves := db.leaves ++ [row], nextLeaveId := db.nextLeaveId + 1 },
   Resp.ok)

/-- Per-row effect of `UPDATE loans SET status = ? WHERE id = ?`
(`src/server.js` line 429). -/
def setLoanStatus (i : Nat) (s : String) (lo : LoanRow) : LoanRow :=
  if lo.id == i then { lo with status := s } else lo

/-- `PUT /api/admin/loans/:id` (`src/server.js` lines 427-441): update the
status of the matching loan row unconditionally and answer
`200 {success:true}`; there is no existence check and no balance effect.
The email dispatch reads but does not write state. -/
def putAdminLoan (db : DB) (i : Nat) (s : String) : DB × Resp :=
  ({ db with loans := db.loans.map (setLoanStatus i s) }, Resp.ok)

/-- The balance column the approval path selects for a given leave row,
read off an employee row (`src/server.js` line 481). -/
def selBalance (leave : LeaveRow) (e : Employee) : Int :=
  if leave.leave_type == "Annual Leave" then e.leave_annual else e.leave_casual

/-- Everything in a loan row except its `status` field. -/
def loanShape (lo : LoanRow) : Nat × String × Int × String × Nat :=
  (lo.id, lo.employee_id, lo.amount, lo.reason, lo.applied_at)

/-! ### Sample concrete states used by counterexample and witness theorems -/

/-- Employee E1 with the schema-default balances (14 annual, 10 casual). -/
def emp1 : Employee :=
  { id := "E1", name := "Alice", email := "alice@example.com",
    role := "employee", basic_salary := 0, invigilation := 0, t_payment := 0,
    increment := 0, extra_leaves_deduction := 0, tax := 0, loan_deduction := 0,
    insurance := 0, others_deduction := 0, leave_annual := 14,
    leave_casual := 10, loan_opening_balance := 0, eidi := 0 }

/-- A pending three-day annual-leave request of E1. -/
def leaveAnn : LeaveRow :=
  { id := 1, employee_id := "E1", leave_type := "Annual Leave",
    start_date := "2025-01-06", days := 3, reason := "family",
    status := "Pending", applied_at := 50 }

/-- A pending three-day casual-leave request of E1. -/
def leaveCas : LeaveRow :=
  { id := 1, employee_id := "E1", leave_type := "Casual",
    start_date := "2025-02-03", days := 3, reason := "errand",
    status := "Pending", applied_at := 60 }

/-- A pending five-day casual-leave request of E1, for the
negative-balance scenario. -/
def leaveCas5 : LeaveRow :=
  { id := 1, employee_id := "E1", leave_type := "Casual",
    start_date := "2025-03-03", days := 5, reason := "travel",
    status := "Pending", applied_at := 70 }

/-- Database holding E1 and the pending annual request. -/
def dbAnn : DB :=
  { employees := [emp1], leaves := [leaveAnn], loans := [], nextLeaveId := 2 }

/-- Database holding E1 and the pending casual request. -/
def dbCas : DB :=
  { employees := [emp1], leaves := [leaveCas], loans := [], nextLeaveId := 2 }

/-- Database holding E1 with `leave_casual = 2` and the pending five-day
casual request. -/
def dbLow : DB :=
  { employees := [{ emp1 with leave_casual := 2 }], leaves := [leaveCas5],
    loans := [], nextLeaveId := 2 }

/-- A pending loan row of E1. -/
def loan1 : LoanRow :=
  { id := 1, employee_id := "E1", amount := 5000, reason := "advance",
    status := "Pending", applied_at := 40 }

/-- Database holding E1 and one pending loan. -/
def dbLoan : DB :=
  { employees := [emp1], leaves := [], loans := [loan1], nextLeaveId := 1 }

/-- State of `dbAnn` after a first approval of request 1. -/
def dbAnn1 : DB := (putAdminLeave dbAnn 1 "Approved").1

/-- State of `dbCas` after a first approval of request 1. -/
def dbCas1 : DB := (putAdminLeave dbCas 1 "Approved").1

/-! ### Helper lemmas -/

/-- `find?` commutes with a map whose function preserves the predicate:
the first match in the mapped list is the image of the first match. -/
theorem find?_map_of_pres {α : Type} (p : α → Bool) (f : α → α)
    (hf : ∀ a, p (f a) = p a) :
    ∀ (l : List α) (a : α), l.find? p = some a →
      (l.map f).find? p = some (f a) := by
  intro l
  induction l with
  | nil => intro a h; simp [List.find?] at h
  | cons x xs ih =>
    intro a h
    cases hp : p x with
    | true =>
      rw [List.find?_cons_of_pos _ hp] at h
      cases h
      have hpf : p (f x) = true := by rw [hf]; exact hp
      simp only [List.map]
      rw [List.find?_cons_of_pos _ hpf]
    | false =>
      rw [List.find?_cons_of_neg _ (by simp [hp])] at h
      have hpf : ¬ p (f x) = true := by simp [hf, hp]
      simp only [List.map]
      rw [List.find?_cons_of_neg _ hpf]
      exact ih a h

/-- `setLeaveStatus` keeps the row id, hence the id test is preserved. -/
theorem setLeaveStatus_pres_id (i : Nat) (s : String) (l : LeaveRow) :
    ((setLeaveStatus i s l).id == i) = (l.id == i) := by
  unfold setLeaveStatus
  cases h : (l.id == i) <;> simp [h]

/-- `deductEmp` keeps the employee id, hence the id test is preserved. -/
theorem deductEmp_pres_id (leave : LeaveRow) (eid : String) (e : Employee) :
    ((deductEmp leave e).id == eid) = (e.id == eid) := by
  unfold deductEmp
  cases h : (e.id == leave.employee_id) <;>
    cases h2 : (leave.leave_type == "Annual Leave") <;> simp [h, h2]

/-- `loanShape` is blind to the status update. -/
theorem loanShape_setLoanStatus (i : Nat) (s : String) (lo : LoanRow) :
    loanShape (setLoanStatus i s lo) = loanShape lo := by
  unfold setLoanStatus loanShape
  cases h : (lo.id == i) <;> simp [h]

/-- Shape of `putAdminLeave` on the Approved branch once the lookup
succeeded: the status map and the deduction map both run. -/
theorem putAdminLeave_found_approved (db : DB) (i : Nat) (l : LeaveRow)
    (hl : findLeave db i = some l) :
    putAdminLeave db i "Approved" =
      ({ db with leaves := db.leaves.map (setLeaveStatus i "Approved"),
                 employees := db.employees.map (deductEmp l) },
       Resp.ok) := by
  unfold putAdminLeave
  rw [hl]
  exact rfl

/-- Shape of `putAdminLeave` for any decision other than Approved once the
lookup succeeded: only the status map runs. -/
theorem putAdminLeave_found_other (db : DB) (i : Nat) (s : String)
    (l : LeaveRow) (hs : (s == "Approved") = false)
    (hl : findLeave db i = some l) :
    putAdminLeave db i s =
      ({ db with leaves := db.leaves.map (setLeaveStatus i s) }, Resp.ok) := by
  unfold putAdminLeave
  rw [hl]
  simp [hs]

/-- After the status map, looking the request up yields the same row with
its status overwritten. -/
theorem findLeave_after_setStatus (db : DB) (i : Nat) (s : String)
    (l : LeaveRow) (hl : findLeave db i = some l) :
    (db.leaves.map (setLeaveStatus i s)).find? (fun x => x.id == i) =
      some { l with status := s } := by
  have hl2 : db.leaves.find? (fun x => x.id == i) = some l := hl
  have h1 := find?_map_of_pres (fun x => x.id == i) (setLeaveStatus i s)
    (setLeaveStatus_pres_id i s) db.leaves l hl2
  have h2 : (l.id == i) = true := by simpa using List.find?_some hl2
  rw [h1]
  simp [setLeaveStatus, h2]

/-- After the deduction map, looking the referenced employee up yields the
same row with exactly the selected balance column decreased by `days`. -/
theorem findEmp_after_deduct (db : DB) (leave : LeaveRow) (e : Employee)
    (he : findEmp db leave.employee_id = some e) :
    (db.employees.map (deductEmp leave)).find?
        (fun x => x.id == leave.employee_id) =
      some (if leave.leave_type == "Annual Leave"
            then { e with leave_annual := e.leave_annual - leave.days }
            else { e with leave_casual := e.leave_casual - leave.days }) := by
  have he2 : db.employees.find? (fun x => x.id == leave.employee_id) = some e := he
  have h1 := find?_map_of_pres (fun x => x.id == leave.employee_id)
    (deductEmp leave) (deductEmp_pres_id leave leave.employee_id)
    db.employees e he2
  have h2 : (e.id == leave.employee_id) = true := by
    simpa using List.find?_some he2
  rw [h1]
  simp [deductEmp, h2]

/-! ### Claim theorems -/

/-- C2: approving a pending leave request with `days = d` answers success,
sets the status of that request to Approved, and changes the referenced
employee row in exactly one balance column, by exactly `d`: `leave_annual`
when the stored `leave_type` is the Annual Leave string (the value the
spec names `AnnualLeave`), `leave_casual` for every other `leave_type`;
every other field of the employee row is unchanged. -/
theorem approve_pending_deducts_one_column
    (db : DB) (i : Nat) (l : LeaveRow) (e : Employee)
    (hl : findLeave db i = some l)
    (hpend : l.status = "Pending")
    (he : findEmp db l.employee_id = some e) :
    (putAdminLeave db i "Approved").2 = Resp.ok ∧
    findLeave (putAdminLeave db i "Approved").1 i =
      some { l with status := "Approved" } ∧
    findEmp (putAdminLeave db i "Approved").1 l.employee_id =
      some (if l.leave_type == "Annual Leave"
            then { e with leave_annual := e.leave_annual - l.days }
            else { e with leave_casual := e.leave_casual - l.days }) := by
  rw [putAdminLeave_found_approved db i l hl]
  exact ⟨rfl, findLeave_after_setStatus db i "Approved" l hl,
         findEmp_after_deduct db l e he⟩

/-- C2 witness: the theorem applied to the concrete pending three-day
annual request of E1, whose balance goes from 14 to 11. -/
theorem approve_pending_deducts_one_column_witness :
    findLeave dbAnn 1 = some leaveAnn ∧
    leaveAnn.status = "Pending" ∧
    findEmp dbAnn leaveAnn.employee_id = some emp1 ∧
    ((putAdminLeave dbAnn 1 "Approved").2 = Resp.ok ∧
     findLeave (putAdminLeave dbAnn 1 "Approved").1 1 =
       some { leaveAnn with status := "Approved" } ∧
     findEmp (putAdminLeave dbAnn 1 "Approved").1 leaveAnn.employee_id =
       some (if leaveAnn.leave_type == "Annual Leave"
             then { emp1 with leave_annual := emp1.leave_annual - leaveAnn.days }
             else { emp1 with leave_casual := emp1.leave_casual - leaveAnn.days })) :=
  ⟨rfl, rfl, rfl,
   approve_pending_deducts_one_column dbAnn 1 leaveAnn emp1 rfl rfl rfl⟩

/-- C4: deciding a pending leave request with decision Rejected answers
success, sets the status of that request to Rejected, and leaves the
whole employees table (hence every balance and every other employee
field) and the loans table unchanged. -/
theorem reject_pending_frames_employees
    (db : DB) (i : Nat) (l : LeaveRow)
    (hl : findLeave db i = some l)
    (hpend : l.status = "Pending") :
    (putAdminLeave db i "Rejected").2 = Resp.ok ∧
    findLeave (putAdminLeave db i "Rejected").1 i =
      some { l with status := "Rejected" } ∧
    (putAdminLeave db i "Rejected").1.employees = db.employees ∧
    (putAdminLeave db i "Rejected").1.loans = db.loans := by
  rw [putAdminLeave_found_other db i "Rejected" l (by decide) hl]
  exact ⟨rfl, findLeave_after_setStatus db i "Rejected" l hl, rfl, rfl⟩

/-- C4 witness: rejecting the concrete pending casual request of E1
leaves the employee row untouched. -/
theorem reject_pending_frames_employees_witness :
    findLeave dbCas 1 = some leaveCas ∧
    leaveCas.status = "Pending" ∧
    ((putAdminLeave dbCas 1 "Rejected").2 = Resp.ok ∧
     findLeave (putAdminLeave dbCas 1 "Rejected").1 1 =
       some { leaveCas with status := "Rejected" } ∧
     (putAdminLeave dbCas 1 "Rejected").1.employees = dbCas.employees ∧
     (putAdminLeave dbCas 1 "Rejected").1.loans = dbCas.loans) :=
  ⟨rfl, rfl, reject_pending_frames_employees dbCas 1 leaveCas rfl rfl⟩

/-- C5: approval is never blocked by an insufficient balance: when the
selected balance is smaller than `days`, approval still answers success
and the balance becomes the exact integer difference, which is
negative. -/
theorem approve_overdraw_goes_negative
    (db : DB) (i : Nat) (l : LeaveRow) (e : Employee)
    (hl : findLeave db i = some l)
    (hpend : l.status = "Pending")
    (he : findEmp db l.employee_id = some e)
    (hover : selBalance l e < l.days) :
    ∃ e2 : Employee,
      (putAdminLeave db i "Approved").2 = Resp.ok ∧
      findEmp (putAdminLeave db i "Approved").1 l.employee_id = some e2 ∧
      selBalance l e2 = selBalance l e - l.days ∧
      selBalance l e2 < 0 := by
  have hbal : selBalance l
      (if l.leave_type == "Annual Leave"
       then { e with leave_annual := e.leave_annual - l.days }
       else { e with leave_casual := e.leave_casual - l.days }) =
      selBalance l e - l.days := by
    unfold selBalance
    cases h : (l.leave_type == "Annual Leave") <;> simp [h]
  refine ⟨_, ?_, ?_, hbal, ?_⟩
  · rw [putAdminLeave_found_approved db i l hl]
  · rw [putAdminLeave_found_approved db i l hl]
    exact findEmp_after_deduct db l e he
  · rw [hbal]
    omega

/-- C5 witness: E1 with `leave_casual = 2` and a five-day casual request
approved ends at `leave_casual = -3`. -/
theorem approve_overdraw_goes_negative_witness :
    findLeave dbLow 1 = some leaveCas5 ∧
    leaveCas5.status = "Pending" ∧
    findEmp dbLow leaveCas5.employee_id = some { emp1 with leave_casual := 2 } ∧
    selBalance leaveCas5 { emp1 with leave_casual := 2 } < leaveCas5.days ∧
    (∃ e2 : Employee,
      (putAdminLeave dbLow 1 "Approved").2 = Resp.ok ∧
      findEmp (putAdminLeave dbLow 1 "Approved").1 leaveCas5.employee_id =
        some e2 ∧
      selBalance leaveCas5 e2 =
        selBalance leaveCas5 { emp1 with leave_casual := 2 } - leaveCas5.days ∧
      selBalance leaveCas5 e2 < 0) :=
  ⟨rfl, rfl, rfl, by decide,
   approve_overdraw_goes_negative dbLow 1 leaveCas5
     { emp1 with leave_casual := 2 } rfl rfl rfl (by decide)⟩

/-- C6: submitting a leave request (here with valid positive `days`)
answers success, appends exactly one new row whose status is Pending and
whose `applied_at` is the insertion time, and leaves the employees table
(hence both balances of every employee) unchanged. -/
theorem submit_creates_pending_balances_unchanged
    (db : DB) (employeeId ty startDate : String) (days : Int)
    (reason : String) (now : Nat) (hvalid : 0 < days) :
    (postLeave db employeeId ty startDate days reason now).2 = Resp.ok ∧
    (postLeave db employeeId ty startDate days reason now).1.leaves =
      db.leaves ++
        [{ id := db.nextLeaveId, employee_id := employeeId, leave_type := ty,
           start_date := startDate, days := days, reason := reason,
           status := "Pending", applied_at := now }] ∧
    (postLeave db employeeId ty startDate days reason now).1.employees =
      db.employees :=
  ⟨rfl, rfl, rfl⟩

/-- C6 witness: a concrete three-day submission by E1 appends one Pending
row and keeps the employee row intact. -/
theorem submit_creates_pending_balances_unchanged_witness :
    (0 : Int) < 3 ∧
    ((postLeave dbAnn "E1" "Casual" "2025-05-05" 3 "trip" 90).2 = Resp.ok ∧
     (postLeave dbAnn "E1" "Casual" "2025-05-05" 3 "trip" 90).1.leaves =
       dbAnn.leaves ++
         [{ id := dbAnn.nextLeaveId, employee_id := "E1",
            leave_type := "Casual", start_date := "2025-05-05", days := 3,
            reason := "trip", status := "Pending", applied_at := 90 }] ∧
     (postLeave dbAnn "E1" "Casual" "2025-05-05" 3 "trip" 90).1.employees =
       dbAnn.employees) :=
  ⟨by decide,
   submit_creates_pending_balances_unchanged dbAnn "E1" "Casual" "2025-05-05"
     3 "trip" 90 (by decide)⟩

/-- C8: a decide call whose id matches no leave row answers 404 and
returns the database completely unchanged. -/
theorem decide_missing_leave_notFound (db : DB) (i : Nat) (s : String)
    (h : findLeave db i = none) :
    putAdminLeave db i s = (db, Resp.notFound) := by
  unfold putAdminLeave
  rw [h]

/-- C8 witness: deciding request 7 in a database whose only leave table is
empty answers 404 and changes nothing. -/
theorem decide_missing_leave_notFound_witness :
    findLeave dbLoan 7 = none ∧
    putAdminLeave dbLoan 7 "Approved" = (dbLoan, Resp.notFound) :=
  ⟨rfl, decide_missing_leave_notFound dbLoan 7 "Approved" rfl⟩

/-- C9: a loan decision answers success and touches neither the employees
table nor the leaves table; in the loans table every field other than
`status` is unchanged on every row. -/
theorem loan_decision_changes_only_loan_status
    (db : DB) (i : Nat) (s : String) :
    (putAdminLoan db i s).2 = Resp.ok ∧
    (putAdminLoan db i s).1.employees = db.employees ∧
    (putAdminLoan db i s).1.leaves = db.leaves ∧
    (putAdminLoan db i s).1.loans.map loanShape = db.loans.map loanShape := by
  refine ⟨rfl, rfl, rfl, ?_⟩
  show (db.loans.map (setLoanStatus i s)).map loanShape =
    db.loans.map loanShape
  rw [List.map_map]
  exact List.map_congr_left (fun lo _ => loanShape_setLoanStatus i s lo)

/-- C10: a loan decision whose id matches no loan row still answers
`200 {success:true}` and returns the database completely unchanged; it is
never reported as 404. -/
theorem loan_decision_missing_id_succeeds
    (db : DB) (i : Nat) (s : String)
    (h : ∀ lo ∈ db.loans, lo.id ≠ i) :
    putAdminLoan db i s = (db, Resp.ok) := by
  have hmap : db.loans.map (setLoanStatus i s) = db.loans := by
    have h2 : ∀ lo ∈ db.loans, setLoanStatus i s lo = lo := by
      intro lo hm
      unfold setLoanStatus
      simp [h lo hm]
    calc db.loans.map (setLoanStatus i s)
        = db.loans.map id := List.map_congr_left (fun lo hm => h2 lo hm)
      _ = db.loans := List.map_id db.loans
  unfold putAdminLoan
  rw [hmap]

/-- C10 witness: deciding loan 2 in a database whose only loan has id 1
answers success and changes nothing. -/
theorem loan_decision_missing_id_succeeds_witness :
    (∀ lo ∈ dbLoan.loans, lo.id ≠ 2) ∧
    putAdminLoan dbLoan 2 "Approved" = (dbLoan, Resp.ok) :=
  ⟨by decide, loan_decision_missing_id_succeeds dbLoan 2 "Approved" (by decide)⟩

/-- C1: the code at the failing input. After a first approval of the
annual request (status Approved, balance 14 - 3 = 11), a second decide
call on the same, already Approved, request is NOT rejected: it answers
success again and deducts the balance a second time, to 8. The handler
has no check that the current status is Pending, so the InvalidState
guard the spec states does not hold. -/
theorem redecide_approved_double_deducts :
    (findLeave dbAnn1 1).map LeaveRow.status = some "Approved" ∧
    (findEmp dbAnn1 "E1").map Employee.leave_annual = some 11 ∧
    (putAdminLeave dbAnn1 1 "Approved").2 = Resp.ok ∧
    (findLeave (putAdminLeave dbAnn1 1 "Approved").1 1).map LeaveRow.status =
      some "Approved" ∧
    (findEmp (putAdminLeave dbAnn1 1 "Approved").1 "E1").map
        Employee.leave_annual = some 8 := by
  exact ⟨rfl, rfl, rfl, rfl, rfl⟩

/-- C3: the code at the failing schedule. Two decide calls on the same
initially pending casual request, run one after the other (the serialized
interleaving, which is one admissible concurrent schedule): both answer
success and the three-day deduction is applied twice, 10 to 7 to 4. No
schedule can make exactly one call fail with InvalidState, because the
handler never inspects the current status at all. -/
theorem two_decides_both_succeed_and_deduct_twice :
    (putAdminLeave dbCas 1 "Approved").2 = Resp.ok ∧
    (findEmp dbCas1 "E1").map Employee.leave_casual = some 7 ∧
    (putAdminLeave dbCas1 1 "Approved").2 = Resp.ok ∧
    (findEmp (putAdminLeave dbCas1 1 "Approved").1 "E1").map
        Employee.leave_casual = some 4 := by
  exact ⟨rfl, rfl, rfl, rfl⟩

/-- C7: the code at the failing input. Submitting a leave request with
`days = 0` is not rejected with a 400 ValidationError: the handler
performs no validation, answers success, and persists a new request with
`days = 0` (and likewise accepts `days = -1`). -/
theorem submit_zero_days_accepted_and_persisted :
    (postLeave dbCas "E1" "Casual" "2025-04-01" 0 "none" 80).2 = Resp.ok ∧
    findLeave (postLeave dbCas "E1" "Casual" "2025-04-01" 0 "none" 80).1 2 =
      some { id := 2, employee_id := "E1", leave_type := "Casual",
             start_date := "2025-04-01", days := 0, reason := "none",
             status := "Pending", applied_at := 80 } ∧
    (postLeave dbCas "E1" "Casual" "2025-04-01" 0 "none" 80).1.leaves.length =
      dbCas.leaves.length + 1 ∧
    (postLeave dbCas "E1" "Casual" "2025-04-01" (-1) "none" 81).2 =
      Resp.ok := by
  exact ⟨rfl, rfl, rfl, rfl⟩

end HR
